import Mathlib

/-!
Verification of the tool-wrapper layer of `server_http.py` (douyin-mcp-server).

The file embeds the two MCP tool functions `get_douyin_download_link` and
`extract_douyin_text` as pure Lean functions.  A Python process environment is
an explicit map from variable names to optional string values, passed to each
tool at call time (the source reads `os.getenv` inside the function bodies).
The collaborator module `douyin_mcp_server.douyin_api` is not part of the
given sources, so its two pipeline functions are parameters: a pipeline call
either returns a value (`Except.ok`) or raises an exception carrying the
message `str(e)` (`Except.error`).  The tool wrappers themselves also get an
`Except` result type, where `Except.error` would mean an exception escaping
the tool boundary uncaught; the `try/except` of the source is embedded by
`tryExcept`.
-/

/-- A process environment: `os.getenv` as a map from names to optional values. -/
def ProcEnv : Type := String → Option String

/-- A JSON-like Python value, enough for the dictionaries the tools return. -/
inductive PyValue where
  | str (s : String)
  | int (n : Int)
  deriving DecidableEq

/-- A Python dict with string keys, as an association list (insertion order). -/
def PyDict : Type := List (String × PyValue)

/-- The keys of a Python dict, in order. -/
def dictKeys (d : PyDict) : List String := d.map Prod.fst

/-- Python `try: body except Exception as e: handler(e)`: an exception raised
by the body is passed to the handler; the handler may itself raise. -/
def tryExcept {α : Type} (body : Except String α) (handler : String → Except String α) :
    Except String α :=
  match body with
  | Except.ok a => Except.ok a
  | Except.error e => handler e

/-- Python falsiness of an `Optional[str]`: `None` and `""` are falsy. -/
def pyStrOptFalsy : Option String → Bool
  | none => true
  | some s => s == ""

/-- The fixed message of line 57 of the source: `"获取下载链接失败"`. -/
def linkFailureMessage : String := "获取下载链接失败"

/-- The fixed missing-credential message of line 77 of the source. -/
def missingKeyMessage : String :=
  "错误：未设置 DASHSCOPE_API_KEY 环境变量，请在部署时配置阿里云百炼 API 密钥"

/-- Tool 1 of `server_http.py` (lines 38-58): wraps the pipeline function
`douyin_api.get_download_link` in `try/except`, returning the pipeline result
unchanged on success and `{"error": str(e), "message": "获取下载链接失败"}` when
the pipeline raises.  The body never reads the process environment. -/
def get_douyin_download_link (env : ProcEnv)
    (get_download_link : String → Except String PyDict)
    (share_link : String) : Except String PyDict :=
  tryExcept (get_download_link share_link)
    (fun e => Except.ok [("error", PyValue.str e), ("message", PyValue.str linkFailureMessage)])

/-- Tool 2 of `server_http.py` (lines 61-84): reads `DASHSCOPE_API_KEY` from
the environment at call time; if it is falsy (unset or empty) it returns the
fixed missing-credential message; otherwise it calls the pipeline function
`douyin_api.extract_text(share_link, api_key, model)` and returns its result,
mapping any raised exception to `"错误：" ++ str(e)`.  The Python default
argument `model = "paraformer-v2"` is embedded by `defaultModel` and
`extract_douyin_text_default` below. -/
def extract_douyin_text (env : ProcEnv)
    (extract_text : String → String → String → Except String String)
    (share_link model : String) : Except String String :=
  tryExcept
    (let api_key := env "DASHSCOPE_API_KEY"
     if pyStrOptFalsy api_key then
       Except.ok missingKeyMessage
     else
       extract_text share_link (api_key.getD "") model)
    (fun e => Except.ok ("错误：" ++ e))

/-- The default value of the `model` parameter (line 62 of the source). -/
def defaultModel : String := "paraformer-v2"

/-- `extract_douyin_text` invoked without an explicit `model` argument. -/
def extract_douyin_text_default (env : ProcEnv)
    (extract_text : String → String → String → Except String String)
    (share_link : String) : Except String String :=
  extract_douyin_text env extract_text share_link defaultModel

/-- Modelled from the spec: the success value of the pipeline function
`douyin_api.get_download_link`, which is not among the given sources.  Per the
spec, on success it produces a VideoMetadata-shaped mapping
`{ videoId, title, author, coverUrl, playUrl, durationSeconds }`. -/
structure VideoMetadata where
  videoId : String
  title : String
  author : String
  coverUrl : String
  playUrl : String
  durationSeconds : Int

/-- The Python dict corresponding to a `VideoMetadata` value, in field order. -/
def VideoMetadata.toDict (m : VideoMetadata) : PyDict :=
  [("videoId", PyValue.str m.videoId), ("title", PyValue.str m.title),
   ("author", PyValue.str m.author), ("coverUrl", PyValue.str m.coverUrl),
   ("playUrl", PyValue.str m.playUrl), ("durationSeconds", PyValue.int m.durationSeconds)]

/-- Modelled from the spec: the pipeline function `douyin_api.get_download_link`
(absent from the given sources) either returns a VideoMetadata-shaped mapping
or raises; `behavior` fixes which of the two happens for each share link. -/
def get_download_link (behavior : String → Except String VideoMetadata)
    (share_link : String) : Except String PyDict :=
  (behavior share_link).map VideoMetadata.toDict

/-- Two sequential invocations of tool 1 with the same arguments against the
same environment and the same (deterministic) upstream pipeline.  The wrapper
keeps no mutable state between invocations, so nothing else is threaded. -/
def invoke_link_twice (env : ProcEnv)
    (get_download_link : String → Except String PyDict)
    (share_link : String) : Except String PyDict × Except String PyDict :=
  (get_douyin_download_link env get_download_link share_link,
   get_douyin_download_link env get_download_link share_link)

/-- Digits of a Python integer literal after the first digit: decimal digits
with single underscores allowed only between digits. -/
def parseDigitsAux (acc : Nat) : List Char → Option Nat
  | [] => some acc
  | c :: rest =>
    if c.isDigit then parseDigitsAux (acc * 10 + (c.toNat - 48)) rest
    else if c = '_' then
      match rest with
      | d :: rest2 =>
        if d.isDigit then parseDigitsAux (acc * 10 + (d.toNat - 48)) rest2 else none
      | [] => none
    else none

/-- Parse a nonempty run of decimal digits (single underscores allowed between
digits), as Python `int` accepts after the optional sign. -/
def parseDigits : List Char → Option Nat
  | [] => none
  | c :: rest => if c.isDigit then parseDigitsAux (c.toNat - 48) rest else none

/-- Python `int(s)` on a string, base 10: surrounding whitespace is stripped,
an optional single sign precedes the digits; anything else raises ValueError. -/
def pyInt (s : String) : Except String Int :=
  let cs := s.data.dropWhile Char.isWhitespace
  let cs := (cs.reverse.dropWhile Char.isWhitespace).reverse
  match cs with
  | '+' :: rest =>
    match parseDigits rest with
    | some n => Except.ok (Int.ofNat n)
    | none => Except.error ("invalid literal for int() with base 10: " ++ s)
  | '-' :: rest =>
    match parseDigits rest with
    | some n => Except.ok (-(Int.ofNat n))
    | none => Except.error ("invalid literal for int() with base 10: " ++ s)
  | other =>
    match parseDigits other with
    | some n => Except.ok (Int.ofNat n)
    | none => Except.error ("invalid literal for int() with base 10: " ++ s)

/-- The listening-port computation of the `__main__` block (line 123 of the
source): `int(os.getenv("PORT", 8000))` — when `PORT` is unset `os.getenv`
already yields the integer `8000`, otherwise the string value is parsed. -/
def startupPort (env : ProcEnv) : Except String Int :=
  match env "PORT" with
  | some s => pyInt s
  | none => Except.ok 8000

/-- Helper: tool 1 always returns `Except.ok` of some dict, whatever the
pipeline does. -/
theorem link_total (env : ProcEnv) (p : String → Except String PyDict) (s : String) :
    ∃ d : PyDict, get_douyin_download_link env p s = Except.ok d := by
  cases h : p s with
  | ok d => exact ⟨d, by simp [get_douyin_download_link, tryExcept, h]⟩
  | error e =>
    exact ⟨[("error", PyValue.str e), ("message", PyValue.str linkFailureMessage)],
      by simp [get_douyin_download_link, tryExcept, h]⟩

/-- Helper: tool 2 always returns `Except.ok` of some string, whatever the
environment holds and whatever the pipeline does. -/
theorem text_total (env : ProcEnv) (p : String → String → String → Except String String)
    (s m : String) : ∃ t : String, extract_douyin_text env p s m = Except.ok t := by
  unfold extract_douyin_text tryExcept
  cases hk : pyStrOptFalsy (env "DASHSCOPE_API_KEY") with
  | true => exact ⟨missingKeyMessage, by simp [hk]⟩
  | false =>
    cases hp : p s ((env "DASHSCOPE_API_KEY").getD "") m with
    | ok t => exact ⟨t, by simp [hk, hp]⟩
    | error e => exact ⟨"错误：" ++ e, by simp [hk, hp]⟩

/-- C1: for every share link (and, for the text tool, every model string),
each tool operation returns a value to the caller — `get_douyin_download_link`
a dict and `extract_douyin_text` a string — and no exception raised by the
underlying pipeline propagates uncaught across the tool boundary (the result
is always `Except.ok`, never `Except.error`), for every environment and every
pipeline behavior. -/
theorem c1_tools_always_return (env : ProcEnv)
    (pLink : String → Except String PyDict)
    (pText : String → String → String → Except String String)
    (s m : String) :
    (∃ d : PyDict, get_douyin_download_link env pLink s = Except.ok d) ∧
    (∃ t : String, extract_douyin_text env pText s m = Except.ok t) :=
  ⟨link_total env pLink s, text_total env pText s m⟩

/-- C2: when `DASHSCOPE_API_KEY` is not configured in the process environment,
`extract_douyin_text` returns the fixed missing-credential message for every
share link and every model, and the result does not depend on the pipeline at
all (the pipeline is universally quantified and absent from the conclusion),
so no pipeline invocation or network call can have been attempted. -/
theorem c2_missing_credential_early_return (env : ProcEnv)
    (p : String → String → String → Except String String) (s m : String)
    (h : env "DASHSCOPE_API_KEY" = none) :
    extract_douyin_text env p s m = Except.ok missingKeyMessage := by
  simp [extract_douyin_text, tryExcept, h, pyStrOptFalsy]

/-- Witness for C2 at a concrete empty environment. -/
theorem c2_missing_credential_early_return_witness :
    extract_douyin_text (fun _ => none) (fun _ _ _ => Except.error "net")
      "https://v.douyin.com/abc" "paraformer-v2" = Except.ok missingKeyMessage :=
  c2_missing_credential_early_return (fun _ => none) (fun _ _ _ => Except.error "net")
    "https://v.douyin.com/abc" "paraformer-v2" rfl

/-- C3: every pipeline failure is mapped to the tool's declared result shape:
`get_douyin_download_link` returns the structured object whose fields are
exactly `error` (carrying the exception text) and `message` (the fixed
human-readable message), and `extract_douyin_text` returns the exception text
wrapped behind the `"错误："` marker — in both cases an `Except.ok` result, so
no unhandled fault crosses the tool boundary. -/
theorem c3_failure_maps_to_declared_shape :
    (∀ (env : ProcEnv) (p : String → Except String PyDict) (s e : String),
       p s = Except.error e →
       get_douyin_download_link env p s =
         Except.ok [("error", PyValue.str e), ("message", PyValue.str linkFailureMessage)]) ∧
    (∀ (env : ProcEnv) (p : String → String → String → Except String String) (s m k e : String),
       env "DASHSCOPE_API_KEY" = some k → ¬ k = "" → p s k m = Except.error e →
       extract_douyin_text env p s m = Except.ok ("错误：" ++ e)) := by
  constructor
  · intro env p s e h
    simp [get_douyin_download_link, tryExcept, h]
  · intro env p s m k e henv hk hp
    simp [extract_douyin_text, tryExcept, henv, pyStrOptFalsy, hk, hp]

/-- Witness for C3 at concrete failing pipelines. -/
theorem c3_failure_maps_to_declared_shape_witness :
    get_douyin_download_link (fun _ => none) (fun _ => Except.error "boom")
      "https://v.douyin.com/abc" =
      Except.ok [("error", PyValue.str "boom"), ("message", PyValue.str linkFailureMessage)] ∧
    extract_douyin_text (fun v => if v = "DASHSCOPE_API_KEY" then some "sk" else none)
      (fun _ _ _ => Except.error "boom") "https://v.douyin.com/abc" "paraformer-v2" =
      Except.ok ("错误：" ++ "boom") :=
  ⟨c3_failure_maps_to_declared_shape.1 (fun _ => none) (fun _ => Except.error "boom")
     "https://v.douyin.com/abc" "boom" rfl,
   c3_failure_maps_to_declared_shape.2 (fun v => if v = "DASHSCOPE_API_KEY" then some "sk" else none)
     (fun _ _ _ => Except.error "boom") "https://v.douyin.com/abc" "paraformer-v2" "sk" "boom"
     rfl (by decide) rfl⟩

/-- C4: when the credential is configured and the pipeline succeeds, each tool
returns the pipeline result unchanged — `extract_douyin_text` returns exactly
the transcript string, `get_douyin_download_link` exactly the metadata
mapping; and when the transcription stage fails instead, the result is an
error-prefixed string (still `Except.ok`, not an escaping exception). -/
theorem c4_success_passthrough :
    (∀ (env : ProcEnv) (p : String → Except String PyDict) (s : String) (d : PyDict),
       p s = Except.ok d → get_douyin_download_link env p s = Except.ok d) ∧
    (∀ (env : ProcEnv) (p : String → String → String → Except String String) (s m k t : String),
       env "DASHSCOPE_API_KEY" = some k → ¬ k = "" → p s k m = Except.ok t →
       extract_douyin_text env p s m = Except.ok t) ∧
    (∀ (env : ProcEnv) (p : String → String → String → Except String String) (s m k e : String),
       env "DASHSCOPE_API_KEY" = some k → ¬ k = "" → p s k m = Except.error e →
       ∃ rest, extract_douyin_text env p s m = Except.ok ("错误：" ++ rest)) := by
  refine ⟨?_, ?_, ?_⟩
  · intro env p s d h
    simp [get_douyin_download_link, tryExcept, h]
  · intro env p s m k t henv hk hp
    simp [extract_douyin_text, tryExcept, henv, pyStrOptFalsy, hk, hp]
  · intro env p s m k e henv hk hp
    exact ⟨e, by simp [extract_douyin_text, tryExcept, henv, pyStrOptFalsy, hk, hp]⟩

/-- Witness for C4: a mocked chain whose transcription stage returns
`"hello world"` makes `extract_douyin_text` return exactly `"hello world"`,
and a mocked metadata pipeline result passes through tool 1 unchanged. -/
theorem c4_success_passthrough_witness :
    get_douyin_download_link (fun _ => none)
      (fun _ => Except.ok [("videoId", PyValue.str "123456")])
      "https://v.douyin.com/abc" = Except.ok [("videoId", PyValue.str "123456")] ∧
    extract_douyin_text (fun v => if v = "DASHSCOPE_API_KEY" then some "sk" else none)
      (fun _ _ _ => Except.ok "hello world") "https://v.douyin.com/abc" "paraformer-v2" =
      Except.ok "hello world" :=
  ⟨c4_success_passthrough.1 (fun _ => none)
     (fun _ => Except.ok [("videoId", PyValue.str "123456")])
     "https://v.douyin.com/abc" [("videoId", PyValue.str "123456")] rfl,
   c4_success_passthrough.2.1 (fun v => if v = "DASHSCOPE_API_KEY" then some "sk" else none)
     (fun _ _ _ => Except.ok "hello world") "https://v.douyin.com/abc" "paraformer-v2"
     "sk" "hello world" rfl (by decide) rfl⟩

/-- C5: on success `get_douyin_download_link` returns a mapping whose fields
are exactly videoId, title, author, coverUrl, playUrl, durationSeconds, and on
failure a mapping whose fields are exactly error and message, for every
behavior of the spec-modelled `get_download_link` pipeline. -/
theorem c5_result_field_shape (env : ProcEnv)
    (b : String → Except String VideoMetadata) (s : String) :
    ∃ d : PyDict, get_douyin_download_link env (get_download_link b) s = Except.ok d ∧
      (dictKeys d = ["videoId", "title", "author", "coverUrl", "playUrl", "durationSeconds"] ∨
       dictKeys d = ["error", "message"]) := by
  cases h : b s with
  | ok meta =>
    refine ⟨meta.toDict, ?_, Or.inl ?_⟩
    · simp [get_douyin_download_link, tryExcept, get_download_link, h, Except.map]
    · simp [VideoMetadata.toDict, dictKeys]
  | error e =>
    refine ⟨[("error", PyValue.str e), ("message", PyValue.str linkFailureMessage)], ?_, Or.inr ?_⟩
    · simp [get_douyin_download_link, tryExcept, get_download_link, h, Except.map]
    · simp [dictKeys]

/-- C6: the credential is read from the environment passed at call time, and
only by the text tool: `get_douyin_download_link` yields the same result under
any two environments (it never reads the environment at all), while
`extract_douyin_text` depends on the environment only through the value of
`DASHSCOPE_API_KEY` at the moment of the call. -/
theorem c6_credential_read_scope :
    (∀ (env1 env2 : ProcEnv) (p : String → Except String PyDict) (s : String),
       get_douyin_download_link env1 p s = get_douyin_download_link env2 p s) ∧
    (∀ (env1 env2 : ProcEnv) (p : String → String → String → Except String String) (s m : String),
       env1 "DASHSCOPE_API_KEY" = env2 "DASHSCOPE_API_KEY" →
       extract_douyin_text env1 p s m = extract_douyin_text env2 p s m) := by
  constructor
  · intro env1 env2 p s
    rfl
  · intro env1 env2 p s m h
    simp [extract_douyin_text, h]

/-- Witness for C6 at two concrete environments agreeing on the credential. -/
theorem c6_credential_read_scope_witness :
    extract_douyin_text (fun v => if v = "DASHSCOPE_API_KEY" then some "sk" else none)
        (fun _ _ _ => Except.ok "t") "https://v.douyin.com/abc" "paraformer-v2" =
      extract_douyin_text (fun v => if v = "DASHSCOPE_API_KEY" then some "sk" else some "other")
        (fun _ _ _ => Except.ok "t") "https://v.douyin.com/abc" "paraformer-v2" :=
  c6_credential_read_scope.2
    (fun v => if v = "DASHSCOPE_API_KEY" then some "sk" else none)
    (fun v => if v = "DASHSCOPE_API_KEY" then some "sk" else some "other")
    (fun _ _ _ => Except.ok "t") "https://v.douyin.com/abc" "paraformer-v2" (by decide)

/-- C7: the model defaults to `"paraformer-v2"` when no explicit argument is
given, and whatever model string is supplied reaches the transcription
pipeline call unchanged (an echo pipeline returns exactly the model string it
was handed). -/
theorem c7_model_default_and_passthrough :
    defaultModel = "paraformer-v2" ∧
    (∀ (env : ProcEnv) (p : String → String → String → Except String String) (s : String),
       extract_douyin_text_default env p s = extract_douyin_text env p s "paraformer-v2") ∧
    (∀ (env : ProcEnv) (s m k : String),
       env "DASHSCOPE_API_KEY" = some k → ¬ k = "" →
       extract_douyin_text env (fun _ _ mod => Except.ok mod) s m = Except.ok m) := by
  refine ⟨rfl, fun env p s => rfl, ?_⟩
  intro env s m k henv hk
  simp [extract_douyin_text, tryExcept, henv, pyStrOptFalsy, hk]

/-- Witness for C7: with the credential set, a non-default model string is
delivered verbatim to the pipeline. -/
theorem c7_model_default_and_passthrough_witness :
    extract_douyin_text (fun v => if v = "DASHSCOPE_API_KEY" then some "sk" else none)
      (fun _ _ mod => Except.ok mod) "https://v.douyin.com/abc" "paraformer-v1" =
      Except.ok "paraformer-v1" :=
  c7_model_default_and_passthrough.2.2
    (fun v => if v = "DASHSCOPE_API_KEY" then some "sk" else none)
    "https://v.douyin.com/abc" "paraformer-v1" "sk" (by decide) (by decide)

/-- C8: two invocations of `get_douyin_download_link` with the same share link
against the same environment and the same fixed upstream pipeline yield
identical results; the wrapper threads no mutable state between the calls. -/
theorem c8_idempotent_invocations (env : ProcEnv)
    (p : String → Except String PyDict) (s : String) :
    (invoke_link_twice env p s).1 = (invoke_link_twice env p s).2 := rfl

/-- C9: the startup listening port is taken from the `PORT` environment
variable when it is set (Python `int` applied to its value) and defaults to
8000 when it is unset. -/
theorem c9_port_from_env_or_default :
    (∀ env : ProcEnv, env "PORT" = none → startupPort env = Except.ok 8000) ∧
    (∀ (env : ProcEnv) (s : String) (n : Int),
       env "PORT" = some s → pyInt s = Except.ok n → startupPort env = Except.ok n) := by
  constructor
  · intro env h
    simp [startupPort, h]
  · intro env s n h hp
    simp [startupPort, h, hp]

/-- Witness for C9: the empty environment yields port 8000, and an environment
with `PORT=9000` yields port 9000. -/
theorem c9_port_from_env_or_default_witness :
    startupPort (fun _ => none) = Except.ok 8000 ∧
    startupPort (fun v => if v = "PORT" then some "9000" else none) = Except.ok 9000 :=
  ⟨c9_port_from_env_or_default.1 (fun _ => none) rfl,
   c9_port_from_env_or_default.2 (fun v => if v = "PORT" then some "9000" else none)
     "9000" 9000 (by decide) rfl⟩

/-- C10: an empty-string `DASHSCOPE_API_KEY` is treated the same as an unset
one: whenever the Python falsiness check fires (unset or empty), the tool
returns the fixed missing-credential message for every share link without
consulting the pipeline, and that message itself begins with the `"错误："`
marker. -/
theorem c10_empty_key_treated_as_unset (env : ProcEnv)
    (p : String → String → String → Except String String) (s m : String)
    (h : pyStrOptFalsy (env "DASHSCOPE_API_KEY") = true) :
    extract_douyin_text env p s m = Except.ok missingKeyMessage ∧
    ∃ rest, missingKeyMessage = "错误：" ++ rest := by
  constructor
  · simp [extract_douyin_text, tryExcept, h]
  · exact ⟨"未设置 DASHSCOPE_API_KEY 环境变量，请在部署时配置阿里云百炼 API 密钥", by decide⟩

/-- Witness for C10 at a concrete environment holding an empty credential. -/
theorem c10_empty_key_treated_as_unset_witness :
    extract_douyin_text (fun v => if v = "DASHSCOPE_API_KEY" then some "" else none)
      (fun _ _ _ => Except.error "net") "https://v.douyin.com/abc" "paraformer-v2" =
      Except.ok missingKeyMessage ∧
    ∃ rest, missingKeyMessage = "错误：" ++ rest :=
  c10_empty_key_treated_as_unset
    (fun v => if v = "DASHSCOPE_API_KEY" then some "" else none)
    (fun _ _ _ => Except.error "net") "https://v.douyin.com/abc" "paraformer-v2" (by decide)
